import Mathlib

/-!
Shallow embedding of the message reconciliation and latency-aggregation
logic of `src/components/chat/ChatWindow.tsx` (LiveKit chat UI example).

The embedding models, faithfully to the TypeScript source:
  * the `ChatMessage` / `LatencyMetrics` / `PipelineMetrics` records,
  * the `handleDataReceived` data-channel handler with its four event
    branches (`user_speech`, `agent_reply` / `conversation_item_added`,
    `agent_speech`, `pipeline_metrics` / `metrics_collected`),
  * the `handleTrackPublished` / `handleTrackSubscribed` (and the no-op
    unpublished / muted / unmuted) track handlers,
  * the `filteredMessages` and `sortedMessages` presentation memos.

JavaScript semantics that matter and are modelled explicitly:
  * `x || y` on numbers treats 0 (and undefined) as falsy — `jsOrNum`;
  * `x || y` on strings treats "" (and undefined) as falsy — `jsOrStrU`;
  * `Array.prototype.reverse` mutates in place: the source calls
    `prev.reverse()` on the live state array inside several updaters, so
    those branches observe and/or return the reversed list.  The model
    reproduces the resulting lists exactly.
  * JS `Map` preserves insertion order and `Array.from(m.values()).pop()`
    yields the value of the most recently *inserted* key; the metrics
    side-table is an insertion-ordered association list.

Timestamps and durations are JS numbers carrying ms values; they are
modelled as `Int` (they are produced by subtraction and may be negative).
`Date.now()` is modelled by an explicit `now` argument to each handler.
Message ids (random strings in the source) are modelled by a fresh-id
counter; nothing observes their text beyond identity.
-/

namespace ChatWindow

inductive Speaker
  | user
  | agent
deriving DecidableEq, Repr

/-- Record `LatencyMetrics` of ChatWindow.tsx: all fields optional (ms). -/
structure LatencyMetrics where
  vad : Option Int := none
  stt : Option Int := none
  llm : Option Int := none
  tts : Option Int := none
  total : Option Int := none
  userSpeechDuration : Option Int := none
  agentResponseDuration : Option Int := none
deriving DecidableEq, Repr

/-- Record `ChatMessage` of ChatWindow.tsx.  Every creation site in the source
builds a `latency` object, so the field is total here. -/
structure ChatMessage where
  id : Nat
  type : Speaker
  text : String
  timestamp : Int
  latency : LatencyMetrics
  conversationId : Option String := none
deriving DecidableEq, Repr

/-- Record `PipelineMetrics` of ChatWindow.tsx (the resolved side-table record). -/
structure PipelineMetrics where
  vad : Int
  stt : Int
  llm : Int
  tts : Int
  total : Int
  conversationId : String
  createdAt : Int
deriving DecidableEq, Repr

/-- JS `a || b` for number-or-undefined values: `0` and `undefined` are
falsy. -/
def jsOrNum : Option Int → Option Int → Option Int
  | some v, b => if v = 0 then b else some v
  | none, b => b

/-- JS `a || d` with a number default. -/
def jsOrNumD : Option Int → Int → Int
  | some v, d => if v = 0 then d else v
  | none, d => d

/-- JS `a || 0` (note `0 || 0 = 0`, so this is `getD 0`). -/
def jsNumOrZero (a : Option Int) : Int := a.getD 0

/-- JS `a || b || 0` for two number-or-undefined values. -/
def jsNum2OrZero : Option Int → Option Int → Int
  | some v, b => if v = 0 then jsNumOrZero b else v
  | none, b => jsNumOrZero b

/-- JS string falsiness: `undefined` and `""`. -/
def strFalsy : Option String → Bool
  | some s => s = ""
  | none => true

/-- JS `a || b || undefined` on string-or-undefined values. -/
def jsOrStrU (a b : Option String) : Option String :=
  if strFalsy a then (if strFalsy b then none else b) else a

/-- JS `s || ''`. -/
def jsStrD (o : Option String) : String := o.getD ""

/-- JS truthiness of a number-or-undefined ref (`0` is falsy). -/
def numTruthy : Option Int → Bool
  | some v => v ≠ 0
  | none => false

/-- Whitespace as stripped by `String.prototype.trim`. -/
def isJsSpace (c : Char) : Bool := c.isWhitespace

def trimChars (l : List Char) : List Char :=
  ((l.dropWhile isJsSpace).reverse.dropWhile isJsSpace).reverse

/-- JS `s.trim()` (structurally recursive model of `String.trim`). -/
def jsTrim (s : String) : String := String.mk (trimChars s.data)

/-- JS `s.toLowerCase()` (structurally recursive model of
`String.toLower`). -/
def jsToLower (s : String) : String := String.mk (s.data.map Char.toLower)

/-- Model of `text.trim().toLowerCase()` — the normalization used everywhere. -/
def normText (s : String) : String := jsToLower (jsTrim s)

/-- JS `Map.set`: update in place if the key exists (keeping its position),
otherwise append — preserving JS `Map` insertion order. -/
def mapSet (k : String) (v : α) : List (String × α) → List (String × α)
  | [] => [(k, v)]
  | (k', v') :: t => if k' = k then (k, v) :: t else (k', v') :: mapSet k v t

/-- JS `Map.get`. -/
def mapGet (k : String) (m : List (String × α)) : Option α :=
  (m.find? (fun p => p.1 = k)).map (·.2)

/-- Model of `Array.from(map.values()).pop()`: value of the most recently inserted
key (JS `Map` iterates in insertion order). -/
def mapLastValue (m : List (String × α)) : Option α :=
  m.getLast?.map (·.2)

/-- The component's mutable state: the `messages` React state plus the
`useRef` tables. -/
structure State where
  messages : List ChatMessage
  pipelineMetricsTable : List (String × PipelineMetrics)
  userSpeechEnd : Option Int
  agentResponseStart : Option Int
  lastUserSpeechTime : Option Int
  trackPublishTimes : List (String × Int)
  trackSubscribeTimes : List (String × Int)
  nextId : Nat
deriving DecidableEq, Repr

def initialState : State :=
  { messages := [], pipelineMetricsTable := [], userSpeechEnd := none,
    agentResponseStart := none, lastUserSpeechTime := none,
    trackPublishTimes := [], trackSubscribeTimes := [], nextId := 0 }

/-- Model of `latestMetrics?.conversationId || undefined` where `latestMetrics` is
`Array.from(pipelineMetricsRef.current.values()).pop()`. -/
def resolveLatestConv (st : State) : Option String :=
  match mapLastValue st.pipelineMetricsTable with
  | some m => if m.conversationId = "" then none else some m.conversationId
  | none => none

/-- The optional `latency` object carried by a data-channel event; an
absent object is observationally the same (via `data.latency?.x`) as an
object with every field absent. -/
structure EventLatency where
  vad : Option Int := none
  stt : Option Int := none
  llm : Option Int := none
  tts : Option Int := none
  total : Option Int := none
  userSpeechDuration : Option Int := none
  agentResponseDuration : Option Int := none
deriving DecidableEq, Repr

/-- One element of a `conversation_item_added` `content` array: a string,
or some non-string JSON value (skipped by the extraction loop). -/
inductive ContentPiece
  | str (s : String)
  | nonString
deriving DecidableEq, Repr

/-- The `item` object of a `conversation_item_added` event. -/
structure ItemShape where
  role : Option String := none
  content : Option (List ContentPiece) := none
deriving DecidableEq, Repr

/-- A field of a nested `metrics` object: either a plain number or an
object `{duration_ms: d}`.  The source resolves it with
`metricsObj.x?.duration_ms || metricsObj.x || 0`.  (For `obj 0` the JS
expression yields the object itself, which every downstream use — only
`> 0` comparisons — treats exactly like a non-positive number, so the
resolution to `0` is observationally faithful.) -/
inductive MetricShape
  | num (v : Int)
  | obj (duration_ms : Int)
deriving DecidableEq, Repr

def resolveNestedField : Option MetricShape → Int
  | some (.num v) => v
  | some (.obj d) => d
  | none => 0

/-- The nested `metrics` object of a `metrics_collected` event. -/
structure NestedMetrics where
  vad : Option MetricShape := none
  stt : Option MetricShape := none
  llm : Option MetricShape := none
  tts : Option MetricShape := none
  total_duration_ms : Option Int := none
  total : Option Int := none
deriving DecidableEq, Repr

/-- A decoded data-channel event, mirroring the JSON surface read by
`handleDataReceived`.  `metricsEvent` covers both `pipeline_metrics` and
`metrics_collected` (the source branches on the presence of the nested
`metrics` object, not on the type string).  `unrecognized` is any payload
whose `type` matches no branch. -/
inductive DataEvent
  | user_speech (text : Option String) (timestamp : Option Int)
      (latency : EventLatency)
  | agent_reply (text : Option String) (timestamp : Option Int)
      (latency : EventLatency) (conversation_id : Option String)
  | conversation_item_added (text : Option String) (item : Option ItemShape)
      (role : Option String) (content : Option (List ContentPiece))
      (timestamp : Option Int) (latency : EventLatency)
      (conversation_id : Option String)
  | agent_speech (text : Option String) (timestamp : Option Int)
      (latency : EventLatency) (conversation_id : Option String)
  | metricsEvent (metrics : Option NestedMetrics)
      (conversation_id : Option String) (conversationId : Option String)
      (vad stt llm tts : Option Int)
      (total_duration_ms : Option Int) (total : Option Int)
      (timestamp : Option Int) (created_at : Option Int)
  | unrecognized
deriving DecidableEq, Repr

/-- latency object of a freshly created user message:
`{vad: data.latency?.vad, stt: data.latency?.stt,
  userSpeechDuration: data.latency?.userSpeechDuration || 0}`. -/
def mkUserLatency (lat : EventLatency) : LatencyMetrics :=
  { vad := lat.vad, stt := lat.stt,
    userSpeechDuration := some (jsNumOrZero lat.userSpeechDuration) }

/-- The `user_speech` branch (ChatWindow.tsx lines 179-224). -/
def handleUserSpeech (st : State) (now : Int) (text : Option String)
    (timestamp : Option Int) (lat : EventLatency) : State :=
  match text with
  | none => st
  | some t =>
    if t = "" then st
    else
      let speechText := jsTrim t
      if speechText = "" then st
      else
        let st1 := { st with userSpeechEnd := some now,
                             lastUserSpeechTime := some now }
        let conversationId := resolveLatestConv st
        let eventTs := jsOrNumD timestamp now
        let recentDuplicate :=
          (((st.messages.filter (fun m => m.type == Speaker.user)).reverse).take 3).any
            (fun m => normText m.text == jsToLower speechText
              && (eventTs - m.timestamp).natAbs < 2000)
        let st2 :=
          if recentDuplicate then st1
          else
            { st1 with
              messages := st.messages ++
                [{ id := st.nextId, type := Speaker.user, text := speechText,
                   timestamp := eventTs, latency := mkUserLatency lat,
                   conversationId := conversationId }],
              nextId := st.nextId + 1 }
        { st2 with agentResponseStart := some now }

/-- latency merge used by the `agent_reply` duplicate update and by the
`agent_speech` refinement update: `{...msg.latency, llm: data.latency?.llm
|| msg.latency?.llm, ...}` for llm, tts, agentResponseDuration, total. -/
def mergeReplyLatency (old : LatencyMetrics) (lat : EventLatency) : LatencyMetrics :=
  { old with
    llm := jsOrNum lat.llm old.llm,
    tts := jsOrNum lat.tts old.tts,
    agentResponseDuration :=
      jsOrNum lat.agentResponseDuration old.agentResponseDuration,
    total := jsOrNum lat.total old.total }

/-- latency object of a freshly created agent reply message. -/
def mkReplyLatency (lat : EventLatency) : LatencyMetrics :=
  { llm := lat.llm, tts := lat.tts,
    agentResponseDuration := lat.agentResponseDuration, total := lat.total }

/-- The fresh message appended by the `agent_reply` branch. -/
def mkAgentReplyMessage (st : State) (now : Int) (replyText : String)
    (timestamp : Option Int) (lat : EventLatency)
    (conversationId : Option String) : ChatMessage :=
  { id := st.nextId, type := Speaker.agent, text := replyText,
    timestamp := jsOrNumD timestamp now, latency := mkReplyLatency lat,
    conversationId := conversationId }

/-- The `setMessages` updater of the `agent_reply` /
`conversation_item_added` branch (ChatWindow.tsx lines 255-357), applied
to the extracted reply text.

The source calls `prev.reverse()` (line 268, in place) when a conversation
id resolves; in the duplicate-merge early return (line 285) the updated
list is therefore the *reversed* one, while every fall-through path calls
`reverse()` a second time (line 305) restoring the original order before
appending. -/
def applyAgentReply (st : State) (now : Int) (replyText : String)
    (timestamp : Option Int) (lat : EventLatency)
    (conversation_id : Option String) : State :=
  let conversationId := jsOrStrU (resolveLatestConv st) conversation_id
  if replyText = "" then st
  else
    let appended : State :=
      { st with
        messages := st.messages ++
          [mkAgentReplyMessage st now replyText timestamp lat conversationId],
        nextId := st.nextId + 1 }
    match conversationId with
    | some cid =>
      let revPrev := st.messages.reverse
      match revPrev.find? (fun m => m.type == Speaker.agent
          && m.conversationId == some cid
          && normText m.text == normText replyText) with
      | some ex =>
        if (jsOrNumD timestamp now - ex.timestamp).natAbs < 2000 then
          { st with
            messages := revPrev.map (fun m =>
              if m.id = ex.id then
                { m with timestamp := jsOrNumD timestamp now,
                         latency := mergeReplyLatency m.latency lat }
              else m) }
        else appended
      | none => appended
    | none => appended

/-- First string element of a `content` array (the extraction loop of the
`conversation_item_added` branch). -/
def firstString : List ContentPiece → Option String
  | [] => none
  | .str s :: _ => some s
  | .nonString :: rest => firstString rest

/-- The `conversation_item_added` text extraction (ChatWindow.tsx lines
228-252): non-assistant items return early; otherwise the first string
content element (trimmed) replaces `(data.text || '').trim()`. -/
def handleConvItemAdded (st : State) (now : Int) (text : Option String)
    (item : Option ItemShape) (role : Option String)
    (content : Option (List ContentPiece)) (timestamp : Option Int)
    (lat : EventLatency) (conversation_id : Option String) : State :=
  let base := jsTrim (jsStrD text)
  match item with
  | none => applyAgentReply st now base timestamp lat conversation_id
  | some it =>
    let r := jsOrStrU it.role role
    let contents : List ContentPiece :=
      match it.content with
      | some c => c
      | none => match content with
        | some c => c
        | none => []
    if r = some "assistant" then
      let replyText :=
        match firstString contents with
        | some s => jsTrim s
        | none => base
      applyAgentReply st now replyText timestamp lat conversation_id
    else st

/-- The `agent_speech` branch (ChatWindow.tsx lines 362-442).  When a
conversation id resolves, `prev` is reversed in place (line 379) and never
re-reversed, so every exit of that branch returns the reversed list. -/
def applyAgentSpeech (st : State) (now : Int) (text : Option String)
    (timestamp : Option Int) (lat : EventLatency)
    (conversation_id : Option String) : State :=
  let speechText := jsTrim (jsStrD text)
  if speechText = "" then st
  else
    let refine := fun (m : ChatMessage) =>
      { m with
        text := if speechText = "" then m.text else speechText,
        timestamp := jsOrNumD timestamp m.timestamp,
        latency := mergeReplyLatency m.latency lat }
    let conversationId := jsOrStrU (resolveLatestConv st) conversation_id
    match conversationId with
    | some cid =>
      let revPrev := st.messages.reverse
      match revPrev.find? (fun m => m.type == Speaker.agent
          && m.conversationId == some cid) with
      | some ex =>
        if (jsOrNumD timestamp now - ex.timestamp).natAbs < 5000 then
          { st with messages := revPrev.map (fun m =>
              if m.id = ex.id then refine m else m) }
        else { st with messages := revPrev }
      | none => { st with messages := revPrev }
    | none =>
      match ((st.messages.filter (fun m => m.type == Speaker.agent)).reverse).head? with
      | some recentMsg =>
        if (jsOrNumD timestamp now - recentMsg.timestamp).natAbs < 5000 then
          { st with messages := st.messages.map (fun m =>
              if m.id = recentMsg.id then refine m else m) }
        else st
      | none => st

/-- Field-level metrics merge (ChatWindow.tsx lines 500-507 and 540-547):
`vad: metrics.vad > 0 ? metrics.vad : (msg.latency?.vad || 0)` etc.
The spread keeps `userSpeechDuration` / `agentResponseDuration`. -/
def applyMetricsToLatency (old : LatencyMetrics) (metrics : PipelineMetrics) :
    LatencyMetrics :=
  { old with
    vad := some (if metrics.vad > 0 then metrics.vad else jsNumOrZero old.vad),
    stt := some (if metrics.stt > 0 then metrics.stt else jsNumOrZero old.stt),
    llm := some (if metrics.llm > 0 then metrics.llm else jsNumOrZero old.llm),
    tts := some (if metrics.tts > 0 then metrics.tts else jsNumOrZero old.tts),
    total := some (if metrics.total > 0 then metrics.total else jsNumOrZero old.total) }

/-- The `setMessages` updater of the metrics branch plus the side-table
write (ChatWindow.tsx lines 480-559): strategy 1 updates every message
with the matching conversation id; strategy 2 (only when none matched)
retro-assigns to the most recent of the last 3 agent messages within
10000 ms of `metrics.createdAt`. -/
def applyPipelineMetrics (st : State) (metrics : PipelineMetrics) : State :=
  let table := mapSet metrics.conversationId metrics st.pipelineMetricsTable
  let prev := st.messages
  let updated := prev.map (fun m =>
    if m.conversationId == some metrics.conversationId then
      { m with latency := applyMetricsToLatency m.latency metrics }
    else m)
  let hasMatchingMessage :=
    prev.any (fun m => m.conversationId == some metrics.conversationId)
  let updated2 :=
    if hasMatchingMessage then updated
    else
      let recentAgentMessages :=
        ((updated.filter (fun m => m.type == Speaker.agent)).reverse).take 3
      match recentAgentMessages.find? (fun m =>
          (metrics.createdAt - m.timestamp).natAbs < 10000) with
      | some mm =>
        updated.map (fun m =>
          if m.id = mm.id then
            { m with conversationId := some metrics.conversationId,
                     latency := applyMetricsToLatency m.latency metrics }
          else m)
      | none => updated
  { st with messages := updated2, pipelineMetricsTable := table }

/-- Resolution of the five duration fields of a metrics event (both the
nested and the legacy flat shape), independent of `now`. -/
def resolveFlatDurations (vad stt llm tts total_duration_ms total : Option Int) :
    Int × Int × Int × Int × Int :=
  (jsNumOrZero vad, jsNumOrZero stt, jsNumOrZero llm, jsNumOrZero tts,
   jsNum2OrZero total_duration_ms total)

def resolveNestedDurations (m : NestedMetrics) : Int × Int × Int × Int × Int :=
  (resolveNestedField m.vad, resolveNestedField m.stt,
   resolveNestedField m.llm, resolveNestedField m.tts,
   jsNum2OrZero m.total_duration_ms m.total)

/-- Assemble a `PipelineMetrics` record from resolved durations. -/
def pmOfDurations (d : Int × Int × Int × Int × Int) (cid : String)
    (createdAt : Int) : PipelineMetrics :=
  { vad := d.1, stt := d.2.1, llm := d.2.2.1, tts := d.2.2.2.1,
    total := d.2.2.2.2, conversationId := cid, createdAt := createdAt }

/-- The `pipeline_metrics` / `metrics_collected` branch (ChatWindow.tsx
lines 446-560). -/
def handleMetricsEvent (st : State) (now : Int)
    (metrics? : Option NestedMetrics)
    (conversation_id conversationIdField : Option String)
    (vad stt llm tts total_duration_ms total : Option Int)
    (timestamp created_at : Option Int) : State :=
  let conv := jsOrStrU conversation_id conversationIdField
  match metrics? with
  | some mObj =>
    let pm := pmOfDurations (resolveNestedDurations mObj)
      (match conv with
        | some c => c
        | none => s!"conv-{now}")
      (jsOrNumD timestamp (jsOrNumD created_at now))
    applyPipelineMetrics st pm
  | none =>
    match conv with
    | none => st
    | some cid =>
      let pm := pmOfDurations
        (resolveFlatDurations vad stt llm tts total_duration_ms total)
        cid (jsOrNumD created_at now)
      applyPipelineMetrics st pm

/-- Dispatch of one decoded data-channel event (the body of
`handleDataReceived`'s `try` block after `JSON.parse`). -/
def handleDataEvent (st : State) (now : Int) : DataEvent → State
  | .user_speech text timestamp lat => handleUserSpeech st now text timestamp lat
  | .agent_reply text timestamp lat conv =>
      applyAgentReply st now (jsTrim (jsStrD text)) timestamp lat conv
  | .conversation_item_added text item role content timestamp lat conv =>
      handleConvItemAdded st now text item role content timestamp lat conv
  | .agent_speech text timestamp lat conv =>
      applyAgentSpeech st now text timestamp lat conv
  | .metricsEvent metrics? conv convField vad stt llm tts tdm total ts ca =>
      handleMetricsEvent st now metrics? conv convField vad stt llm tts tdm total ts ca
  | .unrecognized => st

/-- A raw data-channel payload.  `malformedJson` models bytes on which
`JSON.parse` throws; `wrongTypedField` models a parsed object on which the
synchronous field extraction throws (e.g. `.trim()` on a non-string
`data.text`).  Both throw sites are inside the handler's `try` block. -/
inductive RawPayload
  | valid (e : DataEvent)
  | malformedJson
  | wrongTypedField
deriving DecidableEq, Repr

/-- The decode / extraction stage: everything in the `try` block that can
throw, as an `Except`. -/
def decodePayload : RawPayload → Except String DataEvent
  | .valid e => .ok e
  | .malformedJson => .error "SyntaxError: Unexpected token in JSON"
  | .wrongTypedField => .error "TypeError: not a function"

/-- Handler `handleDataReceived` (ChatWindow.tsx lines 163-564): the `try/catch`
contains every failure; a caught error only logs and leaves the state
untouched. -/
def handleDataReceived (st : State) (now : Int) (p : RawPayload) : State :=
  match decodePayload p with
  | .ok e => handleDataEvent st now e
  | .error _ => st

inductive TrackKind
  | audio
  | video
deriving DecidableEq, Repr

/-- Handler `handleTrackPublished` (ChatWindow.tsx lines 577-610): records the
publish time, and for a remote audio track while user speech has been
observed, overwrites the last user message's `latency.total` with the
response delay. -/
def handleTrackPublished (st : State) (now : Int) (trackSid : String)
    (kind : TrackKind) (isLocal : Bool) : State :=
  let st1 := { st with trackPublishTimes := mapSet trackSid now st.trackPublishTimes }
  match st.lastUserSpeechTime with
  | some t =>
    if isLocal = false && kind == TrackKind.audio && t ≠ 0 then
      let responseDelay := now - t
      let st2 := { st1 with agentResponseStart := some now }
      match (st.messages.reverse).find? (fun m => m.type == Speaker.user) with
      | some lu =>
        { st2 with messages := st.messages.map (fun m =>
            if m.id = lu.id then
              { m with latency := { m.latency with total := some responseDelay } }
            else m) }
      | none => st2
    else st1
  | none => st1

/-- The text of the message appended by `handleTrackSubscribed`. -/
def agentRepliedText : String := "🔊 Agent javob berdi"

/-- Handler `handleTrackSubscribed` (ChatWindow.tsx lines 612-650): for a remote
audio track whose publish time is recorded, and while user speech has been
observed, *appends* a new agent message; always records the subscribe
time. -/
def handleTrackSubscribed (st : State) (now : Int) (trackSid : String)
    (kind : TrackKind) (isLocal : Bool) : State :=
  if isLocal then st
  else
    let publishTime := mapGet trackSid st.trackPublishTimes
    let st1 :=
      if numTruthy publishTime && kind == TrackKind.audio
          && numTruthy st.lastUserSpeechTime then
        { st with
          messages := st.messages ++
            [{ id := st.nextId, type := Speaker.agent,
               text := agentRepliedText, timestamp := now,
               latency :=
                 { total := match st.lastUserSpeechTime with
                     | some t => if t = 0 then none else some (now - t)
                     | none => none,
                   agentResponseDuration := match st.agentResponseStart with
                     | some a => if a = 0 then none else some (now - a)
                     | none => none },
               conversationId := none }],
          nextId := st.nextId + 1 }
      else st
    { st1 with trackSubscribeTimes := mapSet trackSid now st1.trackSubscribeTimes }

/-- A track lifecycle event as delivered by the room. -/
inductive TrackEvent
  | trackPublished (trackSid : String) (kind : TrackKind) (isLocal : Bool)
  | trackSubscribed (trackSid : String) (kind : TrackKind) (isLocal : Bool)
  | trackUnpublished (trackSid : String) (kind : TrackKind) (isLocal : Bool)
  | trackMuted (trackSid : String) (kind : TrackKind) (isLocal : Bool)
  | trackUnmuted (trackSid : String) (kind : TrackKind) (isLocal : Bool)
deriving DecidableEq, Repr

/-- Any event the component reacts to. -/
inductive RoomEvent
  | dataReceived (p : RawPayload)
  | track (t : TrackEvent)
deriving DecidableEq, Repr

/-- One delivery step: `handleTrackUnpublished` / `Muted` / `Unmuted`
only log (ChatWindow.tsx lines 652-680). -/
def step (st : State) (now : Int) : RoomEvent → State
  | .dataReceived p => handleDataReceived st now p
  | .track (.trackPublished sid k loc) => handleTrackPublished st now sid k loc
  | .track (.trackSubscribed sid k loc) => handleTrackSubscribed st now sid k loc
  | .track (.trackUnpublished _ _ _) => st
  | .track (.trackMuted _ _ _) => st
  | .track (.trackUnmuted _ _ _) => st

def runEvents (st : State) (evs : List (Int × RoomEvent)) : State :=
  evs.foldl (fun s e => step s e.1 e.2) st

/-- Pattern match at the head of a char list. -/
def startsWithPat : List Char → List Char → Bool
  | _, [] => true
  | [], _ :: _ => false
  | a :: as, b :: bs => a == b && startsWithPat as bs

def containsPat (s pat : List Char) : Bool :=
  match s with
  | [] => pat.isEmpty
  | _ :: t => startsWithPat s pat || containsPat t pat

/-- JS `s.includes(pat)`. -/
def strIncludes (s pat : String) : Bool := containsPat s.data pat.data

/-- The placeholder test of the presentation filter (ChatWindow.tsx line
59): `msg.text.includes('⏳') || msg.text.includes('Agent javob
bermoqda')`. -/
def isPlaceholderText (s : String) : Bool :=
  strIncludes s "⏳" || strIncludes s "Agent javob bermoqda"

/-- The near-duplicate test of the presentation filter (ChatWindow.tsx
lines 71-75): same type, equal normalized text, timestamps within
3000 ms. -/
def dupWindowMatch (msg m : ChatMessage) : Bool :=
  m.type == msg.type && normText m.text == normText msg.text
    && (m.timestamp - msg.timestamp).natAbs < 3000

/-- Accumulator of the `filteredMessages` loop: the accepted list and the
`seenConversationPairs` map. -/
structure FilterAcc where
  filtered : List ChatMessage
  seenConversationPairs : List (String × String)
deriving DecidableEq, Repr

/-- One iteration of the `filteredMessages` loop (ChatWindow.tsx lines
54-100).  `filtered.reverse()` (line 68) mutates the accumulator in
place, so every iteration that reaches the duplicate check leaves the
accumulator reversed; the window examined is the *first* 10 entries of
that reversed accumulator. -/
def filterStep (acc : FilterAcc) (msg : ChatMessage) : FilterAcc :=
  if jsTrim msg.text = "" then acc
  else if isPlaceholderText msg.text then acc
  else
    let normalizedText := normText msg.text
    let rev := acc.filtered.reverse
    let isDuplicate := (rev.take 10).any (fun m => dupWindowMatch msg m)
    if isDuplicate then { acc with filtered := rev }
    else
      match msg.conversationId with
      | some cid =>
        if msg.type == Speaker.agent && cid ≠ "" then
          match mapGet cid acc.seenConversationPairs with
          | some lastAgentText =>
            if lastAgentText = normalizedText then { acc with filtered := rev }
            else
              { filtered := rev ++ [msg],
                seenConversationPairs :=
                  mapSet cid normalizedText acc.seenConversationPairs }
          | none =>
            { filtered := rev ++ [msg],
              seenConversationPairs :=
                mapSet cid normalizedText acc.seenConversationPairs }
        else { acc with filtered := rev ++ [msg] }
      | none => { acc with filtered := rev ++ [msg] }

/-- The `filteredMessages` memo (ChatWindow.tsx lines 50-103). -/
def filteredMessages (messages : List ChatMessage) : List ChatMessage :=
  (messages.foldl filterStep { filtered := [], seenConversationPairs := [] }).filtered

/-- The comparator of the `sortedMessages` memo (ChatWindow.tsx lines
109-139).  All the explicit same-type sub-branches return `timeDiff`. -/
def compareMessages (a b : ChatMessage) : Int :=
  let timeDiff := a.timestamp - b.timestamp
  if timeDiff.natAbs > 1000 then timeDiff
  else if a.type == Speaker.user && b.type == Speaker.agent then -1
  else if a.type == Speaker.agent && b.type == Speaker.user then 1
  else timeDiff

/-- Stable insertion w.r.t. the comparator: a new element goes after every
element it does not strictly precede, matching a stable
`Array.prototype.sort`. -/
def insertSorted (x : ChatMessage) : List ChatMessage → List ChatMessage
  | [] => [x]
  | h :: t => if compareMessages x h < 0 then x :: h :: t else h :: insertSorted x t

/-- The `sortedMessages` memo (ChatWindow.tsx lines 108-140): a stable
sort of `filteredMessages` by `compareMessages`. -/
def sortedMessages (l : List ChatMessage) : List ChatMessage :=
  l.foldl (fun acc x => insertSorted x acc) []

/-- The list the user sees. -/
def visibleMessages (st : State) : List ChatMessage :=
  sortedMessages (filteredMessages st.messages)

/-! Support definitions used by the verification statements. -/

/-- Names of the five pipeline latency fields shared by `LatencyMetrics`
and `PipelineMetrics`. -/
inductive LatField
  | vad
  | stt
  | llm
  | tts
  | total
deriving DecidableEq, Repr

def LatencyMetrics.get (l : LatencyMetrics) : LatField → Option Int
  | .vad => l.vad
  | .stt => l.stt
  | .llm => l.llm
  | .tts => l.tts
  | .total => l.total

def PipelineMetrics.get (pm : PipelineMetrics) : LatField → Int
  | .vad => pm.vad
  | .stt => pm.stt
  | .llm => pm.llm
  | .tts => pm.tts
  | .total => pm.total

def metricDurOf (d : Int × Int × Int × Int × Int) : LatField → Int
  | .vad => d.1
  | .stt => d.2.1
  | .llm => d.2.2.1
  | .tts => d.2.2.2.1
  | .total => d.2.2.2.2

/-- The `||`-style latency merge of the reply / refinement branches never
touches `vad` / `stt`, and leaves a field unchanged exactly when the
incoming value is zero or absent (JS-falsy). -/
def mergeSpares (lat : EventLatency) : LatField → Bool
  | .vad => true
  | .stt => true
  | .llm => !numTruthy lat.llm
  | .tts => !numTruthy lat.tts
  | .total => !numTruthy lat.total

/-- A data event supplies no positive value for the given latency field:
for the reply / refinement merge paths this means a zero-or-absent value
(negative values are JS-truthy and pass `||`); for the metrics path it
means the resolved duration is non-positive. -/
def suppliesNoPositive : DataEvent → LatField → Bool
  | .user_speech _ _ _, _ => true
  | .unrecognized, _ => true
  | .agent_reply _ _ lat _, f => mergeSpares lat f
  | .conversation_item_added _ _ _ _ _ lat _, f => mergeSpares lat f
  | .agent_speech _ _ lat _, f => mergeSpares lat f
  | .metricsEvent m? _ _ vad stt llm tts tdm total _ _, f =>
    match m? with
    | some mObj => metricDurOf (resolveNestedDurations mObj) f ≤ 0
    | none =>
      metricDurOf (resolveFlatDurations vad stt llm tts tdm total) f ≤ 0

/-- Condition under which `handleTrackSubscribed` appends a message:
remote participant, audio track with a (truthy) recorded publish time,
and a (truthy) recorded user-speech time. -/
def trackSubscribedAppends (st : State) (trackSid : String)
    (kind : TrackKind) (isLocal : Bool) : Bool :=
  !isLocal && numTruthy (mapGet trackSid st.trackPublishTimes)
    && kind == TrackKind.audio && numTruthy st.lastUserSpeechTime

/-- Number of messages a track event appends. -/
def trackEventAppendCount (st : State) : TrackEvent → Nat
  | .trackSubscribed sid k loc => if trackSubscribedAppends st sid k loc then 1 else 0
  | _ => 0

/-- Every message of `l` keeps a message with its id in `l'`. -/
def idsPreserved (l l' : List ChatMessage) : Prop :=
  ∀ m ∈ l, ∃ m' ∈ l', m'.id = m.id

/-! Concrete event sequences used by counterexamples and witnesses. -/

/-- The spec's §8 scenario: user speech at 1000, flat pipeline metrics for
conversation `c1` created at 1700, agent reply at 1800. -/
def c1Events : List (Int × RoomEvent) := [
  (1000, .dataReceived (.valid (.user_speech (some "salom") (some 1000) {}))),
  (1700, .dataReceived (.valid (.metricsEvent none (some "c1") none
    (some 50) (some 120) (some 300) (some 200) (some 670) none none (some 1700)))),
  (1800, .dataReceived (.valid (.agent_reply (some "salom, qandaysiz?") (some 1800) {} none)))]

/-- User speech, then a remote audio track published and subscribed. -/
def c2Events : List (Int × RoomEvent) := [
  (500, .dataReceived (.valid (.user_speech (some "salom") (some 500) {}))),
  (1600, .track (.trackPublished "tr1" TrackKind.audio false))]

/-- Agent reply without any conversation id, stored metrics for `c1` far
from any turn, then an `agent_speech` refinement close to the turn. -/
def c3Events : List (Int × RoomEvent) := [
  (1000, .dataReceived (.valid (.agent_reply (some "javob") (some 1000) {} none))),
  (20000, .dataReceived (.valid (.metricsEvent none (some "c1") none
    (some 50) none none none (some 670) none none (some 20000)))),
  (2000, .dataReceived (.valid (.agent_speech (some "yakuniy javob") (some 2000) {} none)))]

/-- Two agent turns, same conversation id and text, 10000 ms apart. -/
def c4A : ChatMessage :=
  { id := 0, type := Speaker.agent, text := "salom", timestamp := 0,
    latency := {}, conversationId := some "c1" }

def c4B : ChatMessage :=
  { id := 1, type := Speaker.agent, text := "salom", timestamp := 10000,
    latency := {}, conversationId := some "c1" }

/-- An agent turn with no conversation id, as created by the first event
of `c3Events`. -/
def c3Turn : ChatMessage :=
  { id := 0, type := Speaker.agent, text := "javob", timestamp := 1000,
    latency := {}, conversationId := none }

/-- An agent turn that window-matches `c4A` (same text, 1500 ms later). -/
def c4Probe : ChatMessage :=
  { id := 2, type := Speaker.agent, text := "salom", timestamp := 1500,
    latency := {}, conversationId := none }

/-- An agent reply followed by a same-text same-conversation duplicate
1500 ms later carrying `llm`. -/
def c5Events : List (Int × RoomEvent) := [
  (1000, .dataReceived (.valid (.agent_reply (some "salom") (some 1000) {} (some "c1")))),
  (1500, .dataReceived (.valid (.agent_reply (some "Salom") (some 1500)
    { llm := some 300 } (some "c1"))))]

/-- Sequence `c5Events` followed by a duplicate reply carrying a negative `llm`. -/
def c6Events : List (Int × RoomEvent) :=
  c5Events ++ [(1600, .dataReceived (.valid (.agent_reply (some "salom") (some 1600)
    { llm := some (-5) } (some "c1"))))]

/-! Helper lemmas about the JS-style primitives. -/

theorem jsOrNum_of_not_truthy (a b : Option Int) (h : numTruthy a = false) :
    jsOrNum a b = b := by
  cases a with
  | none => rfl
  | some v =>
    simp only [numTruthy, ne_eq, decide_not, Bool.not_eq_false', decide_eq_true_eq] at h
    simp [jsOrNum, h]

theorem mergeReplyLatency_get_spared (old : LatencyMetrics) (lat : EventLatency)
    (f : LatField) (h : mergeSpares lat f = true) :
    (mergeReplyLatency old lat).get f = old.get f := by
  cases f with
  | vad => rfl
  | stt => rfl
  | llm =>
    simp only [mergeSpares, Bool.not_eq_true'] at h
    simp [mergeReplyLatency, LatencyMetrics.get, jsOrNum_of_not_truthy _ _ h]
  | tts =>
    simp only [mergeSpares, Bool.not_eq_true'] at h
    simp [mergeReplyLatency, LatencyMetrics.get, jsOrNum_of_not_truthy _ _ h]
  | total =>
    simp only [mergeSpares, Bool.not_eq_true'] at h
    simp [mergeReplyLatency, LatencyMetrics.get, jsOrNum_of_not_truthy _ _ h]

theorem applyMetricsToLatency_get_nonpos (old : LatencyMetrics)
    (pm : PipelineMetrics) (f : LatField) (v : Int) (hv : old.get f = some v)
    (h : pm.get f ≤ 0) :
    (applyMetricsToLatency old pm).get f = old.get f := by
  cases f
  case vad =>
    simp only [PipelineMetrics.get] at h
    simp only [LatencyMetrics.get] at hv
    simp [applyMetricsToLatency, LatencyMetrics.get,
      show ¬(pm.vad > 0) from by omega, hv, jsNumOrZero]
  case stt =>
    simp only [PipelineMetrics.get] at h
    simp only [LatencyMetrics.get] at hv
    simp [applyMetricsToLatency, LatencyMetrics.get,
      show ¬(pm.stt > 0) from by omega, hv, jsNumOrZero]
  case llm =>
    simp only [PipelineMetrics.get] at h
    simp only [LatencyMetrics.get] at hv
    simp [applyMetricsToLatency, LatencyMetrics.get,
      show ¬(pm.llm > 0) from by omega, hv, jsNumOrZero]
  case tts =>
    simp only [PipelineMetrics.get] at h
    simp only [LatencyMetrics.get] at hv
    simp [applyMetricsToLatency, LatencyMetrics.get,
      show ¬(pm.tts > 0) from by omega, hv, jsNumOrZero]
  case total =>
    simp only [PipelineMetrics.get] at h
    simp only [LatencyMetrics.get] at hv
    simp [applyMetricsToLatency, LatencyMetrics.get,
      show ¬(pm.total > 0) from by omega, hv, jsNumOrZero]

theorem pmOfDurations_get (d : Int × Int × Int × Int × Int) (cid : String)
    (ca : Int) (f : LatField) :
    (pmOfDurations d cid ca).get f = metricDurOf d f := by
  cases f <;> rfl

/-! Helper lemmas about id preservation. -/

theorem idsPreserved_refl (l : List ChatMessage) : idsPreserved l l :=
  fun m hm => ⟨m, hm, rfl⟩

theorem idsPreserved_append (l t : List ChatMessage) : idsPreserved l (l ++ t) :=
  fun m hm => ⟨m, List.mem_append_left _ hm, rfl⟩

theorem idsPreserved_reverse (l : List ChatMessage) : idsPreserved l l.reverse :=
  fun m hm => ⟨m, List.mem_reverse.mpr hm, rfl⟩

theorem idsPreserved_map (l : List ChatMessage) (f : ChatMessage → ChatMessage)
    (hf : ∀ x, (f x).id = x.id) : idsPreserved l (l.map f) :=
  fun m hm => ⟨f m, List.mem_map_of_mem f hm, hf m⟩

theorem idsPreserved_trans {l₁ l₂ l₃ : List ChatMessage}
    (h1 : idsPreserved l₁ l₂) (h2 : idsPreserved l₂ l₃) : idsPreserved l₁ l₃ := by
  intro m hm
  obtain ⟨m', hm', he⟩ := h1 m hm
  obtain ⟨m'', hm'', he'⟩ := h2 m' hm'
  exact ⟨m'', hm'', he'.trans he⟩

theorem idsPreserved_reverse_map (l : List ChatMessage)
    (f : ChatMessage → ChatMessage) (hf : ∀ x, (f x).id = x.id) :
    idsPreserved l (l.reverse.map f) :=
  idsPreserved_trans (idsPreserved_reverse l) (idsPreserved_map _ f hf)

theorem handleUserSpeech_ids (st : State) (now : Int) (text : Option String)
    (timestamp : Option Int) (lat : EventLatency) :
    idsPreserved st.messages (handleUserSpeech st now text timestamp lat).messages := by
  unfold handleUserSpeech
  cases text with
  | none => exact idsPreserved_refl _
  | some t =>
    simp only
    split
    · exact idsPreserved_refl _
    · split
      · exact idsPreserved_refl _
      · split
        · exact idsPreserved_refl _
        · exact idsPreserved_append _ _

theorem applyAgentReply_ids (st : State) (now : Int) (replyText : String)
    (timestamp : Option Int) (lat : EventLatency) (conv : Option String) :
    idsPreserved st.messages (applyAgentReply st now replyText timestamp lat conv).messages := by
  unfold applyAgentReply
  simp only
  split
  · exact idsPreserved_refl _
  · split
    · split
      · split
        · refine idsPreserved_reverse_map _ _ ?_
          intro x
          split <;> rfl
        · exact idsPreserved_append _ _
      · exact idsPreserved_append _ _
    · exact idsPreserved_append _ _

theorem handleConvItemAdded_ids (st : State) (now : Int) (text : Option String)
    (item : Option ItemShape) (role : Option String)
    (content : Option (List ContentPiece)) (timestamp : Option Int)
    (lat : EventLatency) (conv : Option String) :
    idsPreserved st.messages
      (handleConvItemAdded st now text item role content timestamp lat conv).messages := by
  unfold handleConvItemAdded
  cases item with
  | none => exact applyAgentReply_ids _ _ _ _ _ _
  | some it =>
    simp only
    split
    · exact applyAgentReply_ids _ _ _ _ _ _
    · exact idsPreserved_refl _

theorem applyAgentSpeech_ids (st : State) (now : Int) (text : Option String)
    (timestamp : Option Int) (lat : EventLatency) (conv : Option String) :
    idsPreserved st.messages (applyAgentSpeech st now text timestamp lat conv).messages := by
  unfold applyAgentSpeech
  simp only
  split
  · exact idsPreserved_refl _
  · split
    · split
      · split
        · refine idsPreserved_reverse_map _ _ ?_
          intro x
          split <;> rfl
        · exact idsPreserved_reverse _
      · exact idsPreserved_reverse _
    · split
      · split
        · refine idsPreserved_map _ _ ?_
          intro x
          split <;> rfl
        · exact idsPreserved_refl _
      · exact idsPreserved_refl _

theorem applyPipelineMetrics_ids (st : State) (pm : PipelineMetrics) :
    idsPreserved st.messages (applyPipelineMetrics st pm).messages := by
  unfold applyPipelineMetrics
  simp only
  have h1 : idsPreserved st.messages
      (st.messages.map (fun m =>
        if m.conversationId == some pm.conversationId then
          { m with latency := applyMetricsToLatency m.latency pm }
        else m)) := by
    refine idsPreserved_map _ _ ?_
    intro x
    split <;> rfl
  split
  · exact h1
  · split
    · refine idsPreserved_trans h1 ?_
      refine idsPreserved_map _ _ ?_
      intro x
      split <;> rfl
    · exact h1

theorem handleMetricsEvent_ids (st : State) (now : Int)
    (metrics? : Option NestedMetrics) (conv convField : Option String)
    (vad stt llm tts tdm total : Option Int) (ts ca : Option Int) :
    idsPreserved st.messages
      (handleMetricsEvent st now metrics? conv convField vad stt llm tts tdm total ts ca).messages := by
  unfold handleMetricsEvent
  cases metrics? with
  | some mObj => exact applyPipelineMetrics_ids _ _
  | none =>
    simp only
    split
    · exact idsPreserved_refl _
    · exact applyPipelineMetrics_ids _ _

theorem handleTrackPublished_ids (st : State) (now : Int) (sid : String)
    (kind : TrackKind) (isLocal : Bool) :
    idsPreserved st.messages (handleTrackPublished st now sid kind isLocal).messages := by
  unfold handleTrackPublished
  split
  · split
    · split
      · refine idsPreserved_map _ _ ?_
        intro x
        split <;> rfl
      · exact idsPreserved_refl _
    · exact idsPreserved_refl _
  · exact idsPreserved_refl _

theorem handleTrackSubscribed_ids (st : State) (now : Int) (sid : String)
    (kind : TrackKind) (isLocal : Bool) :
    idsPreserved st.messages (handleTrackSubscribed st now sid kind isLocal).messages := by
  unfold handleTrackSubscribed
  split
  · exact idsPreserved_refl _
  · simp only
    split
    · exact idsPreserved_append _ _
    · exact idsPreserved_refl _

theorem applyAgentReply_latency_spared (st : State) (now : Int)
    (replyText : String) (timestamp : Option Int) (lat : EventLatency)
    (conv : Option String) (f : LatField) (m : ChatMessage)
    (hm : m ∈ st.messages) (hz : mergeSpares lat f = true) :
    ∃ m' ∈ (applyAgentReply st now replyText timestamp lat conv).messages,
      m'.id = m.id ∧ m'.latency.get f = m.latency.get f := by
  unfold applyAgentReply
  simp only
  split
  · exact ⟨m, hm, rfl, rfl⟩
  · split
    · split
      · split
        · refine ⟨_, List.mem_map_of_mem _ (List.mem_reverse.mpr hm), ?_, ?_⟩
          · dsimp only
            split <;> rfl
          · dsimp only
            split
            · exact mergeReplyLatency_get_spared _ _ _ hz
            · rfl
        · exact ⟨m, List.mem_append_left _ hm, rfl, rfl⟩
      · exact ⟨m, List.mem_append_left _ hm, rfl, rfl⟩
    · exact ⟨m, List.mem_append_left _ hm, rfl, rfl⟩

theorem applyAgentSpeech_latency_spared (st : State) (now : Int)
    (text : Option String) (timestamp : Option Int) (lat : EventLatency)
    (conv : Option String) (f : LatField) (m : ChatMessage)
    (hm : m ∈ st.messages) (hz : mergeSpares lat f = true) :
    ∃ m' ∈ (applyAgentSpeech st now text timestamp lat conv).messages,
      m'.id = m.id ∧ m'.latency.get f = m.latency.get f := by
  unfold applyAgentSpeech
  simp only
  split
  · exact ⟨m, hm, rfl, rfl⟩
  · split
    · split
      · split
        · refine ⟨_, List.mem_map_of_mem _ (List.mem_reverse.mpr hm), ?_, ?_⟩
          · dsimp only
            split <;> rfl
          · dsimp only
            split
            · exact mergeReplyLatency_get_spared _ _ _ hz
            · rfl
        · exact ⟨m, List.mem_reverse.mpr hm, rfl, rfl⟩
      · exact ⟨m, List.mem_reverse.mpr hm, rfl, rfl⟩
    · split
      · split
        · refine ⟨_, List.mem_map_of_mem _ hm, ?_, ?_⟩
          · dsimp only
            split <;> rfl
          · dsimp only
            split
            · exact mergeReplyLatency_get_spared _ _ _ hz
            · rfl
        · exact ⟨m, hm, rfl, rfl⟩
      · exact ⟨m, hm, rfl, rfl⟩

theorem applyPipelineMetrics_latency_nonpos (st : State) (pm : PipelineMetrics)
    (f : LatField) (v : Int) (m : ChatMessage) (hm : m ∈ st.messages)
    (hv : m.latency.get f = some v) (h : pm.get f ≤ 0) :
    ∃ m' ∈ (applyPipelineMetrics st pm).messages,
      m'.id = m.id ∧ m'.latency.get f = some v := by
  unfold applyPipelineMetrics
  simp only
  set g1 : ChatMessage → ChatMessage := fun mm =>
    if mm.conversationId == some pm.conversationId then
      { mm with latency := applyMetricsToLatency mm.latency pm }
    else mm with hg1
  have hid1 : (g1 m).id = m.id := by
    rw [hg1]
    dsimp only
    split <;> rfl
  have hlat1 : (g1 m).latency.get f = some v := by
    rw [hg1]
    dsimp only
    split
    · exact (applyMetricsToLatency_get_nonpos _ _ _ v hv h).trans hv
    · exact hv
  have hmem1 : g1 m ∈ st.messages.map g1 := List.mem_map_of_mem _ hm
  split
  · exact ⟨g1 m, hmem1, hid1, hlat1⟩
  · split
    · rename_i mm0 hfind
      refine ⟨_, List.mem_map_of_mem _ hmem1, ?_, ?_⟩
      · dsimp only
        split <;> simp [hid1]
      · dsimp only
        split
        · exact (applyMetricsToLatency_get_nonpos _ _ _ v hlat1 h).trans hlat1
        · exact hlat1
    · exact ⟨g1 m, hmem1, hid1, hlat1⟩

/-! Claim statements. -/

/-- C10: no handler ever deletes a turn — for every incoming event (data
channel payload, well-formed or not, or track lifecycle event), every
turn present before processing still has a turn with its id afterwards;
handlers only append or mutate, so the set of turn ids only grows. -/
theorem C10_no_deletion (st : State) (now : Int) (ev : RoomEvent)
    (m : ChatMessage) (hm : m ∈ st.messages) :
    ∃ m' ∈ (step st now ev).messages, m'.id = m.id := by
  have h : idsPreserved st.messages (step st now ev).messages := by
    cases ev with
    | dataReceived p =>
      cases p with
      | valid e =>
        cases e with
        | user_speech text timestamp lat =>
          exact handleUserSpeech_ids _ _ _ _ _
        | agent_reply text timestamp lat conv =>
          exact applyAgentReply_ids _ _ _ _ _ _
        | conversation_item_added text item role content timestamp lat conv =>
          exact handleConvItemAdded_ids _ _ _ _ _ _ _ _ _
        | agent_speech text timestamp lat conv =>
          exact applyAgentSpeech_ids _ _ _ _ _ _
        | metricsEvent m? conv convField vad stt llm tts tdm total ts ca =>
          exact handleMetricsEvent_ids _ _ _ _ _ _ _ _ _ _ _ _ _
        | unrecognized => exact idsPreserved_refl _
      | malformedJson => exact idsPreserved_refl _
      | wrongTypedField => exact idsPreserved_refl _
    | track t =>
      cases t with
      | trackPublished sid k loc => exact handleTrackPublished_ids _ _ _ _ _
      | trackSubscribed sid k loc => exact handleTrackSubscribed_ids _ _ _ _ _
      | trackUnpublished sid k loc => exact idsPreserved_refl _
      | trackMuted sid k loc => exact idsPreserved_refl _
      | trackUnmuted sid k loc => exact idsPreserved_refl _
  exact h m hm

/-- Witness for C10 at a concrete state and event. -/
theorem C10_no_deletion_witness :
    c4A ∈ [c4A] ∧
    ∃ m' ∈ (step { initialState with messages := [c4A], nextId := 1 } 0
        (.dataReceived (.valid (.agent_reply (some "yangi") (some 100) {} (some "c2"))))).messages,
      m'.id = c4A.id :=
  ⟨by decide,
   C10_no_deletion { initialState with messages := [c4A], nextId := 1 } 0
     (.dataReceived (.valid (.agent_reply (some "yangi") (some 100) {} (some "c2"))))
     c4A (by decide)⟩

/-- C2 (amended): the track handlers for published, unpublished, muted
and unmuted events never change the number of turns (published may only
mutate latency fields of the last user turn); a subscribed event appends
exactly one agent turn when it concerns a remote audio track with a
recorded (truthy) publish time while user speech has been observed, and
otherwise leaves the count unchanged. -/
theorem C2_track_turn_count (st : State) (now : Int) (tev : TrackEvent) :
    (step st now (.track tev)).messages.length
      = st.messages.length + trackEventAppendCount st tev := by
  cases tev with
  | trackPublished sid k loc =>
    simp only [step, trackEventAppendCount]
    unfold handleTrackPublished
    split
    · split
      · split
        · simp
        · simp
      · simp
    · simp
  | trackSubscribed sid k loc =>
    simp only [step, trackEventAppendCount]
    unfold handleTrackSubscribed
    cases loc with
    | true => simp [trackSubscribedAppends]
    | false =>
      simp only [Bool.false_eq_true, if_false, trackSubscribedAppends,
        Bool.not_false, Bool.true_and]
      split
      · rename_i hcond
        simp [hcond, List.length_append]
      · rename_i hcond
        simp [eq_false_of_ne_true hcond]
  | trackUnpublished sid k loc => simp [step, trackEventAppendCount]
  | trackMuted sid k loc => simp [step, trackEventAppendCount]
  | trackUnmuted sid k loc => simp [step, trackEventAppendCount]

/-- C2 counterexample: a subscribed remote audio track (published at
1600, after user speech at 500) increases the number of turns from 1 to
2, refuting "for every track event the number of turns in the collection
is unchanged afterwards". -/
theorem C2_counterexample :
    ¬ ((step (runEvents initialState c2Events) 2000
        (.track (.trackSubscribed "tr1" TrackKind.audio false))).messages.length
      = (runEvents initialState c2Events).messages.length) := by decide

/-- C6 (amended): once a latency field of a turn holds a positive value,
a later data-channel event that supplies no positive value for that field
— zero or absent for the `||`-style reply / refinement merges, any
non-positive resolved duration for the metrics path — leaves the stored
value unchanged.  (The claim's "negative" must be dropped for the reply /
refinement merges: a negative number is JS-truthy and does replace the
stored value there; see the counterexample.) -/
theorem C6_latency_monotonic (st : State) (now : Int) (e : DataEvent)
    (f : LatField) (v : Int) (m : ChatMessage)
    (hm : m ∈ st.messages) (hv : m.latency.get f = some v) (hpos : 0 < v)
    (hz : suppliesNoPositive e f = true) :
    ∃ m' ∈ (handleDataEvent st now e).messages,
      m'.id = m.id ∧ m'.latency.get f = some v := by
  cases e with
  | user_speech text timestamp lat =>
    simp only [handleDataEvent]
    unfold handleUserSpeech
    cases text with
    | none => exact ⟨m, hm, rfl, hv⟩
    | some t =>
      simp only
      split
      · exact ⟨m, hm, rfl, hv⟩
      · split
        · exact ⟨m, hm, rfl, hv⟩
        · split
          · exact ⟨m, hm, rfl, hv⟩
          · exact ⟨m, List.mem_append_left _ hm, rfl, hv⟩
  | agent_reply text timestamp lat conv =>
    simp only [handleDataEvent]
    obtain ⟨m', h1, h2, h3⟩ :=
      applyAgentReply_latency_spared st now (jsTrim (jsStrD text)) timestamp lat conv f m hm hz
    exact ⟨m', h1, h2, h3.trans hv⟩
  | conversation_item_added text item role content timestamp lat conv =>
    simp only [handleDataEvent]
    unfold handleConvItemAdded
    cases item with
    | none =>
      obtain ⟨m', h1, h2, h3⟩ :=
        applyAgentReply_latency_spared st now (jsTrim (jsStrD text)) timestamp lat conv f m hm hz
      exact ⟨m', h1, h2, h3.trans hv⟩
    | some it =>
      simp only
      split
      · obtain ⟨m', h1, h2, h3⟩ :=
          applyAgentReply_latency_spared st now _ timestamp lat conv f m hm hz
        exact ⟨m', h1, h2, h3.trans hv⟩
      · exact ⟨m, hm, rfl, hv⟩
  | agent_speech text timestamp lat conv =>
    simp only [handleDataEvent]
    obtain ⟨m', h1, h2, h3⟩ :=
      applyAgentSpeech_latency_spared st now text timestamp lat conv f m hm hz
    exact ⟨m', h1, h2, h3.trans hv⟩
  | metricsEvent m? conv convField vad stt llm tts tdm total ts ca =>
    simp only [handleDataEvent]
    unfold handleMetricsEvent
    cases m? with
    | some mObj =>
      simp only [suppliesNoPositive, decide_eq_true_eq] at hz
      simp only
      refine applyPipelineMetrics_latency_nonpos _ _ f v m hm hv ?_
      rw [pmOfDurations_get]
      exact hz
    | none =>
      simp only [suppliesNoPositive, decide_eq_true_eq] at hz
      simp only
      split
      · exact ⟨m, hm, rfl, hv⟩
      · refine applyPipelineMetrics_latency_nonpos _ _ f v m hm hv ?_
        rw [pmOfDurations_get]
        exact hz
  | unrecognized => exact ⟨m, hm, rfl, hv⟩

/-- Witness for C6: a stored `llm` of 300 survives a duplicate reply
event whose `llm` is 0. -/
theorem C6_latency_monotonic_witness :
    ((runEvents initialState c5Events).messages.head?.map (fun m => m.latency.llm)
        = some (some 300)) ∧
    ∃ m' ∈ (handleDataEvent (runEvents initialState c5Events) 1600
        (.agent_reply (some "salom") (some 1600) { llm := some 0 } (some "c1"))).messages,
      m'.id = 0 ∧ m'.latency.get LatField.llm = some 300 := by
  refine ⟨by decide, ?_⟩
  have h := C6_latency_monotonic (runEvents initialState c5Events) 1600
    (.agent_reply (some "salom") (some 1600) { llm := some 0 } (some "c1"))
    LatField.llm 300
    { id := 0, type := Speaker.agent, text := "salom", timestamp := 1500,
      latency := { llm := some 300 }, conversationId := some "c1" }
    (by decide) (by decide) (by decide) (by decide)
  obtain ⟨m', h1, h2, h3⟩ := h
  exact ⟨m', h1, h2, h3⟩

/-- C6 counterexample: after `c5Events` the single agent turn stores
`llm = 300 > 0`; the third event of `c6Events` is a same-text duplicate
reply carrying `llm = -5` (negative), after which the stored value is
`-5` — a later event with a negative value did change the stored
positive value. -/
theorem C6_counterexample :
    ((runEvents initialState c5Events).messages.map (fun m => (m.id, m.latency.llm))
        = [(0, some 300)]) ∧
    ((runEvents initialState c6Events).messages.map (fun m => (m.id, m.latency.llm))
        = [(0, some (-5))]) := by decide

/-- C9: a payload on which decoding / extraction fails (malformed JSON or
a wrongly-typed field, both inside the handler's `try`) leaves the state
untouched and does not affect the processing of any subsequent payload. -/
theorem C9_error_containment (st : State) (now : Int) (p : RawPayload)
    (nextNow : Int) (q : RawPayload)
    (h : ∃ s, decodePayload p = Except.error s) :
    handleDataReceived st now p = st ∧
    handleDataReceived (handleDataReceived st now p) nextNow q
      = handleDataReceived st nextNow q := by
  obtain ⟨s, hs⟩ := h
  cases p with
  | valid e => simp [decodePayload] at hs
  | malformedJson => exact ⟨rfl, rfl⟩
  | wrongTypedField => exact ⟨rfl, rfl⟩

/-- Witness for C9 on a malformed payload followed by a user speech
payload. -/
theorem C9_error_containment_witness :
    (∃ s, decodePayload RawPayload.malformedJson = Except.error s) ∧
    (handleDataReceived initialState 0 RawPayload.malformedJson = initialState ∧
     handleDataReceived (handleDataReceived initialState 0 RawPayload.malformedJson) 5
        (RawPayload.valid (.user_speech (some "salom") (some 5) {}))
      = handleDataReceived initialState 5
        (RawPayload.valid (.user_speech (some "salom") (some 5) {}))) :=
  ⟨⟨"SyntaxError: Unexpected token in JSON", rfl⟩,
   C9_error_containment initialState 0 RawPayload.malformedJson 5
     (RawPayload.valid (.user_speech (some "salom") (some 5) {}))
     ⟨"SyntaxError: Unexpected token in JSON", rfl⟩⟩

/-- C1 counterexample: running the spec's three-event scenario yields 2
visible turns, but the human turn carries no `vad`/`stt` and the agent
turn carries no `llm`/`tts`/`total` — the metrics event is processed
before any turn carries (or can retro-receive) conversation `c1`, and the
later reply only inherits the conversation id, never the stored
durations. -/
theorem C1_counterexample :
    ¬ ((visibleMessages (runEvents initialState c1Events)).length = 2 ∧
      (∃ hm ∈ visibleMessages (runEvents initialState c1Events),
        hm.type = Speaker.user ∧ hm.timestamp = 1000 ∧
        hm.latency.vad = some 50 ∧ hm.latency.stt = some 120) ∧
      (∃ am ∈ visibleMessages (runEvents initialState c1Events),
        am.type = Speaker.agent ∧ am.text = "salom, qandaysiz?" ∧
        am.latency.llm = some 300 ∧ am.latency.tts = some 200 ∧
        am.latency.total = some 670)) := by decide

/-- C1 (amended): the three-event scenario yields exactly 2 visible
turns — the human turn at 1000 with only `userSpeechDuration = 0`
recorded (no `vad`/`stt`), and the agent turn "salom, qandaysiz?" at 1800
tagged with conversation id `c1` but with no latency durations: the
metrics arrive while no turn matches and no agent turn exists, so they
stay in the side-table, and the reply created afterwards only picks up
the conversation id. -/
theorem C1_scenario_actual :
    visibleMessages (runEvents initialState c1Events) = [
      { id := 0, type := Speaker.user, text := "salom", timestamp := 1000,
        latency := { userSpeechDuration := some 0 }, conversationId := none },
      { id := 1, type := Speaker.agent, text := "salom, qandaysiz?",
        timestamp := 1800, latency := {}, conversationId := some "c1" }] := by
  decide

/-- C5 (amended): the duplicate-reply merge (same conversation id, same
normalized text, within 2000 ms) keeps the turn count, its id, speaker,
text and conversation id, and replaces only the latency fields (via the
zero-or-absent-sparing `||` merge) *and the timestamp*, which is set to
the event's timestamp; all other turns survive unchanged (the stored
order is reversed by the in-place `reverse()`). -/
theorem C5_merge_frame (st : State) (now : Int) (replyText : String)
    (timestamp : Option Int) (lat : EventLatency) (conv : Option String)
    (cid : String) (ex : ChatMessage)
    (h1 : jsOrStrU (resolveLatestConv st) conv = some cid)
    (h2 : ¬ replyText = "")
    (h3 : st.messages.reverse.find? (fun m => m.type == Speaker.agent
        && m.conversationId == some cid
        && normText m.text == normText replyText) = some ex)
    (h4 : (jsOrNumD timestamp now - ex.timestamp).natAbs < 2000) :
    (applyAgentReply st now replyText timestamp lat conv).messages.length
        = st.messages.length ∧
    (∃ m' ∈ (applyAgentReply st now replyText timestamp lat conv).messages,
      m'.id = ex.id ∧ m'.type = ex.type ∧ m'.text = ex.text ∧
      m'.conversationId = ex.conversationId ∧
      m'.timestamp = jsOrNumD timestamp now ∧
      m'.latency = mergeReplyLatency ex.latency lat) ∧
    (∀ m ∈ st.messages, m.id ≠ ex.id →
      m ∈ (applyAgentReply st now replyText timestamp lat conv).messages) := by
  have hred : (applyAgentReply st now replyText timestamp lat conv).messages
      = st.messages.reverse.map (fun m =>
          if m.id = ex.id then
            { m with timestamp := jsOrNumD timestamp now,
                     latency := mergeReplyLatency m.latency lat }
          else m) := by
    unfold applyAgentReply
    simp only [h1, if_neg h2, h3, if_pos h4]
  refine ⟨?_, ?_, ?_⟩
  · rw [hred]
    simp
  · rw [hred]
    refine ⟨_, List.mem_map_of_mem _ (List.mem_of_find?_eq_some h3), ?_⟩
    simp only [if_pos rfl]
    exact ⟨rfl, rfl, rfl, rfl, rfl, rfl⟩
  · intro m hm hne
    rw [hred]
    have : (fun m =>
        if m.id = ex.id then
          { m with timestamp := jsOrNumD timestamp now,
                   latency := mergeReplyLatency m.latency lat }
        else m) m = m := by
      simp [hne]
    rw [← this]
    exact List.mem_map_of_mem _ (List.mem_reverse.mpr hm)

/-- Witness for C5: the duplicate reply of `c5Events` merges into the
turn created by its first event. -/
theorem C5_merge_frame_witness :
    ((jsOrNumD (some 1500) 1500 - (1000 : Int)).natAbs < 2000) ∧
    (applyAgentReply (runEvents initialState (c5Events.take 1)) 1500 "Salom"
        (some 1500) { llm := some 300 } (some "c1")).messages.length
      = (runEvents initialState (c5Events.take 1)).messages.length :=
  ⟨by decide,
   (C5_merge_frame (runEvents initialState (c5Events.take 1)) 1500 "Salom"
     (some 1500) { llm := some 300 } (some "c1") "c1"
     { id := 0, type := Speaker.agent, text := "salom", timestamp := 1000,
       latency := {}, conversationId := some "c1" }
     (by decide) (by decide) (by decide) (by decide)).1⟩

/-- C5 counterexample: the turn created at timestamp 1000 has timestamp
1500 after the duplicate-reply merge — the merge does update a non-latency
field, refuting "every other field of the turn is unchanged". -/
theorem C5_counterexample :
    ((runEvents initialState (c5Events.take 1)).messages.map
        (fun m => (m.id, m.timestamp)) = [(0, 1000)]) ∧
    ((runEvents initialState c5Events).messages.map
        (fun m => (m.id, m.timestamp)) = [(0, 1500)]) := by decide

/-- C3 (amended): for a non-empty `agent_speech` refinement — (i) when a
conversation id resolves and the most recent agent turn carrying it lies
within 5000 ms, that turn's text is replaced and its latency merged;
(ii) when a conversation id resolves but *no* agent turn carries it, the
event is dropped — no turn is created or modified (the stored list is
merely reversed); the most-recent-agent fallback does **not** apply here;
(iii) the fallback to the most recent agent turn within 5000 ms applies
only when no conversation id resolves at all. -/
theorem C3_refinement_behavior :
    (∀ st now text timestamp lat conv cid ex,
      jsOrStrU (resolveLatestConv st) conv = some cid →
      ¬ jsTrim (jsStrD text) = "" →
      st.messages.reverse.find? (fun m => m.type == Speaker.agent
          && m.conversationId == some cid) = some ex →
      (jsOrNumD timestamp now - ex.timestamp).natAbs < 5000 →
      ∃ m' ∈ (applyAgentSpeech st now text timestamp lat conv).messages,
        m'.id = ex.id ∧ m'.text = jsTrim (jsStrD text) ∧
        m'.latency = mergeReplyLatency ex.latency lat) ∧
    (∀ st now text timestamp lat conv cid,
      jsOrStrU (resolveLatestConv st) conv = some cid →
      ¬ jsTrim (jsStrD text) = "" →
      (∀ m ∈ st.messages, ¬ (m.type = Speaker.agent ∧ m.conversationId = some cid)) →
      (applyAgentSpeech st now text timestamp lat conv).messages
        = st.messages.reverse) ∧
    (∀ st now text timestamp lat conv recent,
      jsOrStrU (resolveLatestConv st) conv = none →
      ¬ jsTrim (jsStrD text) = "" →
      ((st.messages.filter (fun m => m.type == Speaker.agent)).reverse).head?
        = some recent →
      (jsOrNumD timestamp now - recent.timestamp).natAbs < 5000 →
      ∃ m' ∈ (applyAgentSpeech st now text timestamp lat conv).messages,
        m'.id = recent.id ∧ m'.text = jsTrim (jsStrD text) ∧
        m'.latency = mergeReplyLatency recent.latency lat) := by
  refine ⟨?_, ?_, ?_⟩
  · intro st now text timestamp lat conv cid ex h1 h2 h3 h4
    have hred : (applyAgentSpeech st now text timestamp lat conv).messages
        = st.messages.reverse.map (fun m =>
            if m.id = ex.id then
              { m with
                text := if jsTrim (jsStrD text) = "" then m.text
                        else jsTrim (jsStrD text),
                timestamp := jsOrNumD timestamp m.timestamp,
                latency := mergeReplyLatency m.latency lat }
            else m) := by
      unfold applyAgentSpeech
      simp only [h1, if_neg h2, h3, if_pos h4]
    rw [hred]
    refine ⟨_, List.mem_map_of_mem _ (List.mem_of_find?_eq_some h3), ?_⟩
    simp only [if_pos rfl, if_neg h2]
    exact ⟨rfl, rfl, rfl⟩
  · intro st now text timestamp lat conv cid h1 h2 hnone
    have hfind : st.messages.reverse.find? (fun m => m.type == Speaker.agent
        && m.conversationId == some cid) = none := by
      rw [List.find?_eq_none]
      intro x hx
      simp only [Bool.and_eq_true, beq_iff_eq]
      exact hnone x (List.mem_reverse.mp hx)
    unfold applyAgentSpeech
    simp only [h1, if_neg h2, hfind]
  · intro st now text timestamp lat conv recent h1 h2 h3 h4
    have hmem : recent ∈ st.messages := by
      have h5 : recent ∈ (st.messages.filter
          (fun m => m.type == Speaker.agent)).reverse := by
        cases hl : (st.messages.filter (fun m => m.type == Speaker.agent)).reverse with
        | nil => rw [hl] at h3; simp at h3
        | cons a t =>
          rw [hl] at h3
          simp only [List.head?_cons, Option.some_inj] at h3
          exact h3 ▸ List.mem_cons_self a t
      exact List.mem_of_mem_filter (List.mem_reverse.mp h5)
    have hred : (applyAgentSpeech st now text timestamp lat conv).messages
        = st.messages.map (fun m =>
            if m.id = recent.id then
              { m with
                text := if jsTrim (jsStrD text) = "" then m.text
                        else jsTrim (jsStrD text),
                timestamp := jsOrNumD timestamp m.timestamp,
                latency := mergeReplyLatency m.latency lat }
            else m) := by
      unfold applyAgentSpeech
      simp only [h1, if_neg h2, h3, if_pos h4]
    rw [hred]
    refine ⟨_, List.mem_map_of_mem _ hmem, ?_⟩
    simp only [if_pos rfl, if_neg h2]
    exact ⟨rfl, rfl, rfl⟩

/-- Witness for C3: part (i) refines the matching turn, part (ii) drops
the event when the resolved id matches no turn, part (iii) falls back to
the most recent agent turn when no id resolves. -/
theorem C3_refinement_behavior_witness :
    (∃ m' ∈ (applyAgentSpeech
        { initialState with messages := [c4A], nextId := 1 } 2000
        (some "yakuniy javob") (some 2000) {} (some "c1")).messages,
      m'.id = c4A.id ∧ m'.text = jsTrim (jsStrD (some "yakuniy javob")) ∧
      m'.latency = mergeReplyLatency c4A.latency {}) ∧
    ((applyAgentSpeech { initialState with messages := [c4A], nextId := 1 } 2000
        (some "yakuniy javob") (some 2000) {} (some "c2")).messages
      = [c4A].reverse) ∧
    (∃ m' ∈ (applyAgentSpeech
        { initialState with messages := [c3Turn], nextId := 1 } 2000
        (some "yakuniy javob") (some 2000) {} none).messages,
      m'.id = c3Turn.id ∧ m'.text = jsTrim (jsStrD (some "yakuniy javob")) ∧
      m'.latency = mergeReplyLatency c3Turn.latency {}) :=
  ⟨C3_refinement_behavior.1 { initialState with messages := [c4A], nextId := 1 }
      2000 (some "yakuniy javob") (some 2000) {} (some "c1") "c1" c4A
      (by decide) (by decide) (by decide) (by decide),
   C3_refinement_behavior.2.1 { initialState with messages := [c4A], nextId := 1 }
      2000 (some "yakuniy javob") (some 2000) {} (some "c2") "c2"
      (by decide) (by decide) (by decide),
   C3_refinement_behavior.2.2
      { initialState with messages := [c3Turn], nextId := 1 } 2000
      (some "yakuniy javob") (some 2000) {} none c3Turn
      (by decide) (by decide) (by decide) (by decide)⟩

/-- C3 counterexample: in `c3Events` the refinement at 2000 resolves
conversation id `c1` (from the stored metrics); no turn carries `c1`, yet
a most recent agent turn exists within 5000 ms (at 1000, conversation id
`none`).  The claim's fallback would hand it the refinement text, but the
code drops the event: the turn's text stays "javob". -/
theorem C3_counterexample :
    (resolveLatestConv (runEvents initialState (c3Events.take 2)) = some "c1") ∧
    ((runEvents initialState (c3Events.take 2)).messages.map
        (fun m => (m.id, m.type == Speaker.agent, m.text, m.timestamp,
          m.conversationId))
      = [(0, true, "javob", 1000, none)]) ∧
    ((runEvents initialState c3Events).messages.map (fun m => (m.id, m.text))
      = [(0, "javob")]) := by decide

theorem applyAgentReply_append_of_no_match (st : State) (now : Int)
    (replyText : String) (timestamp : Option Int) (lat : EventLatency)
    (conv : Option String) (cid : String)
    (h1 : jsOrStrU (resolveLatestConv st) conv = some cid)
    (h2 : ¬ replyText = "")
    (h3 : st.messages.reverse.find? (fun m => m.type == Speaker.agent
        && m.conversationId == some cid
        && normText m.text == normText replyText) = none) :
    applyAgentReply st now replyText timestamp lat conv
      = { st with
          messages := st.messages
            ++ [mkAgentReplyMessage st now replyText timestamp lat (some cid)],
          nextId := st.nextId + 1 } := by
  unfold applyAgentReply
  simp only [h1, if_neg h2, h3]

/-- C7: two agent replies resolving the same conversation id but with
different normalized texts yield two turns.  Starting from a state where
no agent turn carries the id, the first reply appends a turn with its
text, and the second appends a brand-new agent turn with the second text
— the first turn is still present, its text intact. -/
theorem C7_distinct_text_appends (st : State) (now1 now2 : Int)
    (t1 t2 : String) (ts1 ts2 : Option Int) (lat1 lat2 : EventLatency)
    (conv1 conv2 : Option String) (cid : String)
    (h1 : jsOrStrU (resolveLatestConv st) conv1 = some cid)
    (h2 : jsOrStrU (resolveLatestConv st) conv2 = some cid)
    (h3 : ¬ t1 = "") (h4 : ¬ t2 = "")
    (h5 : ¬ normText t1 = normText t2)
    (hnone : ∀ m ∈ st.messages,
      ¬ (m.type = Speaker.agent ∧ m.conversationId = some cid)) :
    ∃ M2 : ChatMessage,
      (applyAgentReply (applyAgentReply st now1 t1 ts1 lat1 conv1)
          now2 t2 ts2 lat2 conv2).messages
        = st.messages
          ++ [mkAgentReplyMessage st now1 t1 ts1 lat1 (some cid), M2] ∧
      M2.type = Speaker.agent ∧ M2.text = t2 ∧ M2.conversationId = some cid := by
  have hfind1 : st.messages.reverse.find? (fun m => m.type == Speaker.agent
      && m.conversationId == some cid
      && normText m.text == normText t1) = none := by
    rw [List.find?_eq_none]
    intro x hx
    simp only [Bool.and_eq_true, beq_iff_eq]
    rintro ⟨⟨ha, hb⟩, _⟩
    exact hnone x (List.mem_reverse.mp hx) ⟨ha, hb⟩
  have hst1 : applyAgentReply st now1 t1 ts1 lat1 conv1
      = { st with
          messages := st.messages
            ++ [mkAgentReplyMessage st now1 t1 ts1 lat1 (some cid)],
          nextId := st.nextId + 1 } :=
    applyAgentReply_append_of_no_match st now1 t1 ts1 lat1 conv1 cid h1 h3 hfind1
  have h2' : jsOrStrU
      (resolveLatestConv (applyAgentReply st now1 t1 ts1 lat1 conv1)) conv2
      = some cid := by
    rw [hst1]
    exact h2
  have hfind2 : (applyAgentReply st now1 t1 ts1 lat1 conv1).messages.reverse.find?
      (fun m => m.type == Speaker.agent
        && m.conversationId == some cid
        && normText m.text == normText t2) = none := by
    rw [hst1]
    rw [List.find?_eq_none]
    intro x hx
    have hx' := List.mem_reverse.mp hx
    simp only [List.mem_append, List.mem_singleton] at hx'
    simp only [Bool.and_eq_true, beq_iff_eq]
    rintro ⟨⟨ha, hb⟩, hc⟩
    cases hx' with
    | inl hmem => exact hnone x hmem ⟨ha, hb⟩
    | inr heq =>
      rw [heq] at hc
      exact h5 hc
  have hst2 : applyAgentReply (applyAgentReply st now1 t1 ts1 lat1 conv1)
      now2 t2 ts2 lat2 conv2
      = { (applyAgentReply st now1 t1 ts1 lat1 conv1) with
          messages := (applyAgentReply st now1 t1 ts1 lat1 conv1).messages
            ++ [mkAgentReplyMessage (applyAgentReply st now1 t1 ts1 lat1 conv1)
                  now2 t2 ts2 lat2 (some cid)],
          nextId := (applyAgentReply st now1 t1 ts1 lat1 conv1).nextId + 1 } :=
    applyAgentReply_append_of_no_match _ now2 t2 ts2 lat2 conv2 cid h2' h4 hfind2
  refine ⟨mkAgentReplyMessage (applyAgentReply st now1 t1 ts1 lat1 conv1)
      now2 t2 ts2 lat2 (some cid), ?_, rfl, rfl, rfl⟩
  rw [hst2]
  simp only
  rw [hst1]
  simp

/-- Witness for C7 with two concrete replies on the empty state. -/
theorem C7_distinct_text_appends_witness :
    (¬ normText "salom" = normText "boshqa javob") ∧
    ∃ M2 : ChatMessage,
      (applyAgentReply (applyAgentReply initialState 1000 "salom" (some 1000) {}
          (some "c1")) 2000 "boshqa javob" (some 2000) {} (some "c1")).messages
        = initialState.messages
          ++ [mkAgentReplyMessage initialState 1000 "salom" (some 1000) {} (some "c1"), M2] ∧
      M2.type = Speaker.agent ∧ M2.text = "boshqa javob" ∧
      M2.conversationId = some "c1" :=
  ⟨by decide,
   C7_distinct_text_appends initialState 1000 2000 "salom" "boshqa javob"
     (some 1000) (some 2000) {} {} (some "c1") (some "c1") "c1"
     (by decide) (by decide) (by decide) (by decide) (by decide)
     (by intro m hm; simp [initialState] at hm)⟩

/-- C8: a visible (non-empty, non-placeholder) human turn and agent turn
whose timestamps differ by less than 1000 ms are ordered human-first by
the presentation filter's sorted output, for both insertion orders of the
two turns. -/
theorem C8_tiebreak (hm am : ChatMessage)
    (h1 : hm.type = Speaker.user) (h2 : am.type = Speaker.agent)
    (h3 : ¬ jsTrim hm.text = "") (h4 : ¬ jsTrim am.text = "")
    (h5 : isPlaceholderText hm.text = false)
    (h6 : isPlaceholderText am.text = false)
    (h7 : (hm.timestamp - am.timestamp).natAbs < 1000) :
    sortedMessages (filteredMessages [hm, am]) = [hm, am] ∧
    sortedMessages (filteredMessages [am, hm]) = [hm, am] := by
  have hdup1 : dupWindowMatch am hm = false := by
    simp [dupWindowMatch, h1, h2]
  have hdup2 : dupWindowMatch hm am = false := by
    simp [dupWindowMatch, h1, h2]
  have hstepUser : ∀ acc : FilterAcc, acc.filtered = [am] →
      (filterStep acc hm).filtered = [am, hm] := by
    intro acc hacc
    unfold filterStep
    rw [if_neg h3, if_neg (by simp [h5])]
    simp only [hacc]
    cases hcm : hm.conversationId with
    | none => simp [hdup2]
    | some cid => simp [hdup2, h1]
  have hstepUser0 : (filterStep { filtered := [], seenConversationPairs := [] } hm).filtered
      = [hm] ∧ (filterStep { filtered := [], seenConversationPairs := [] } hm).seenConversationPairs = [] := by
    unfold filterStep
    rw [if_neg h3, if_neg (by simp [h5])]
    cases hcm : hm.conversationId with
    | none => simp
    | some cid => simp [h1]
  have hstepAgent : ∀ acc : FilterAcc, acc.filtered = [hm] →
      acc.seenConversationPairs = [] → (filterStep acc am).filtered = [hm, am] := by
    intro acc hacc hpairs
    unfold filterStep
    rw [if_neg h4, if_neg (by simp [h6])]
    simp only [hacc, hpairs]
    cases hcm : am.conversationId with
    | none => simp [hdup1]
    | some cid =>
      by_cases hcid : cid = ""
      · simp [hdup1, hcid, h2]
      · simp [hdup1, hcid, h2, mapGet]
  have hstepAgent0 : (filterStep { filtered := [], seenConversationPairs := [] } am).filtered
      = [am] := by
    unfold filterStep
    rw [if_neg h4, if_neg (by simp [h6])]
    cases hcm : am.conversationId with
    | none => simp
    | some cid =>
      by_cases hcid : cid = ""
      · simp [hcid, h2]
      · simp [hcid, h2, mapGet]
  have hfil1 : filteredMessages [hm, am] = [hm, am] := by
    unfold filteredMessages
    rw [List.foldl_cons, List.foldl_cons, List.foldl_nil]
    exact hstepAgent _ hstepUser0.1 hstepUser0.2
  have hfil2 : filteredMessages [am, hm] = [am, hm] := by
    unfold filteredMessages
    rw [List.foldl_cons, List.foldl_cons, List.foldl_nil]
    exact hstepUser _ hstepAgent0
  have hcmp1 : compareMessages am hm = 1 := by
    unfold compareMessages
    rw [if_neg (by omega)]
    simp [h1, h2]
  have hcmp2 : compareMessages hm am = -1 := by
    unfold compareMessages
    rw [if_neg (by omega)]
    simp [h1, h2]
  constructor
  · rw [hfil1]
    simp [sortedMessages, insertSorted, hcmp1]
  · rw [hfil2]
    simp [sortedMessages, insertSorted, hcmp2]

/-- Witness for C8 with a human turn at 1000 and an agent turn at 1500. -/
theorem C8_tiebreak_witness :
    ((( (1000 : Int) - 1500).natAbs < 1000) ∧
    sortedMessages (filteredMessages
      [{ id := 0, type := Speaker.user, text := "salom", timestamp := 1000,
         latency := {}, conversationId := none },
       { id := 1, type := Speaker.agent, text := "javob", timestamp := 1500,
         latency := {}, conversationId := none }])
      = [{ id := 0, type := Speaker.user, text := "salom", timestamp := 1000,
           latency := {}, conversationId := none },
         { id := 1, type := Speaker.agent, text := "javob", timestamp := 1500,
           latency := {}, conversationId := none }]) ∧
    sortedMessages (filteredMessages
      [{ id := 1, type := Speaker.agent, text := "javob", timestamp := 1500,
         latency := {}, conversationId := none },
       { id := 0, type := Speaker.user, text := "salom", timestamp := 1000,
         latency := {}, conversationId := none }])
      = [{ id := 0, type := Speaker.user, text := "salom", timestamp := 1000,
           latency := {}, conversationId := none },
         { id := 1, type := Speaker.agent, text := "javob", timestamp := 1500,
           latency := {}, conversationId := none }] := by
  have h := C8_tiebreak
    { id := 0, type := Speaker.user, text := "salom", timestamp := 1000,
      latency := {}, conversationId := none }
    { id := 1, type := Speaker.agent, text := "javob", timestamp := 1500,
      latency := {}, conversationId := none }
    (by decide) (by decide) (by decide) (by decide) (by decide) (by decide)
    (by decide)
  exact ⟨⟨by decide, h.1⟩, h.2⟩

/-- C4 (amended): on a non-empty, non-placeholder turn, while at most 10
turns have been accepted (so the examined 10-entry window covers every
accepted turn), the presentation filter drops the turn exactly when
either some accepted turn has the same speaker, equal normalized text and
a timestamp within 3000 ms, or the turn is an agent turn with a non-empty
conversation id whose last recorded agent text for that id equals the
turn's normalized text — the latter drop ignores timestamps entirely.
(Beyond 10 accepted turns the examined window is the first 10 entries of
the accumulator as re-reversed in place each iteration, not the last 10
accepted turns.) -/
theorem C4_dedup_characterization (acc : FilterAcc) (msg : ChatMessage)
    (hlen : acc.filtered.length ≤ 10)
    (hne : ¬ jsTrim msg.text = "")
    (hph : isPlaceholderText msg.text = false) :
    (filterStep acc msg).filtered.length = acc.filtered.length ↔
      (∃ m ∈ acc.filtered, dupWindowMatch msg m = true) ∨
      (msg.type = Speaker.agent ∧ ∃ cid, msg.conversationId = some cid ∧
        ¬ cid = "" ∧
        mapGet cid acc.seenConversationPairs = some (normText msg.text)) := by
  have hnodup : acc.filtered.reverse.any (fun m => dupWindowMatch msg m) = false →
      ¬ ∃ m ∈ acc.filtered, dupWindowMatch msg m = true := by
    intro hdup
    rintro ⟨m, hm, hp⟩
    have h : acc.filtered.reverse.any (fun m => dupWindowMatch msg m) = true :=
      List.any_eq_true.mpr ⟨m, List.mem_reverse.mpr hm, hp⟩
    rw [hdup] at h
    exact Bool.false_ne_true h
  unfold filterStep
  rw [if_neg hne, if_neg (by simp [hph])]
  have htake : acc.filtered.reverse.take 10 = acc.filtered.reverse :=
    List.take_of_length_le (by simpa using hlen)
  simp only [htake]
  split
  · rename_i hdup
    refine iff_of_true (by simp) (Or.inl ?_)
    obtain ⟨m, hmem, hp⟩ := List.any_eq_true.mp hdup
    exact ⟨m, List.mem_reverse.mp hmem, hp⟩
  · rename_i hdup
    rw [Bool.not_eq_true] at hdup
    split
    · rename_i cid hcm
      split
      · rename_i hcond
        rw [Bool.and_eq_true, beq_iff_eq, decide_eq_true_eq] at hcond
        split
        · rename_i lastText hlook
          split
          · rename_i hlast
            refine iff_of_true (by simp) (Or.inr ⟨hcond.1, cid, hcm, hcond.2, ?_⟩)
            rw [hlook, hlast]
          · rename_i hlast
            refine iff_of_false (by simp) ?_
            rintro (h | ⟨_, cid', hcid', _, hlook'⟩)
            · exact hnodup hdup h
            · rw [hcm] at hcid'
              injection hcid' with he
              rw [← he, hlook] at hlook'
              injection hlook' with he'
              exact hlast he'
        · rename_i hlook
          refine iff_of_false (by simp) ?_
          rintro (h | ⟨_, cid', hcid', _, hlook'⟩)
          · exact hnodup hdup h
          · rw [hcm] at hcid'
            injection hcid' with he
            rw [← he, hlook] at hlook'
            exact Option.noConfusion hlook'
      · rename_i hcond
        refine iff_of_false (by simp) ?_
        rintro (h | ⟨hag, cid', hcid', hne', _⟩)
        · exact hnodup hdup h
        · rw [hcm] at hcid'
          injection hcid' with he
          rw [Bool.and_eq_true, beq_iff_eq, decide_eq_true_eq] at hcond
          exact hcond ⟨hag, he ▸ hne'⟩
    · rename_i hcm
      refine iff_of_false (by simp) ?_
      rintro (h | ⟨_, cid, hcid, _⟩)
      · exact hnodup hdup h
      · rw [hcm] at hcid
        exact Option.noConfusion hcid

/-- Witness for C4: `c4Probe` window-matches the single accepted turn
`c4A` and is dropped. -/
theorem C4_dedup_characterization_witness :
    (([c4A] : List ChatMessage).length ≤ 10) ∧
    ((filterStep { filtered := [c4A], seenConversationPairs := [] } c4Probe).filtered.length
        = ([c4A] : List ChatMessage).length ↔
      (∃ m ∈ ([c4A] : List ChatMessage), dupWindowMatch c4Probe m = true) ∨
      (c4Probe.type = Speaker.agent ∧ ∃ cid, c4Probe.conversationId = some cid ∧
        ¬ cid = "" ∧
        mapGet cid ([] : List (String × String)) = some (normText c4Probe.text))) :=
  ⟨by decide,
   C4_dedup_characterization { filtered := [c4A], seenConversationPairs := [] }
     c4Probe (by decide) (by decide) (by decide)⟩

/-- C4 counterexample: `c4B` repeats `c4A`'s text in the same
conversation 10000 ms later.  `c4A` is among the last 10 accepted turns
but is *not* a near-duplicate window match (the delta exceeds 3000 ms),
so the claim says `c4B` is kept — yet the filter drops it via the
conversation-pair rule, which ignores timestamps. -/
theorem C4_counterexample :
    (dupWindowMatch c4B c4A = false) ∧ (filteredMessages [c4A, c4B] = [c4A]) := by
  decide

end ChatWindow
